import Mathlib

/-!
Verification development for the AI-tool platform repository.

Shallow embedding of the core state/policy logic:
* the client-side TTL cache (`src/hooks/useCache.ts`, class `SimpleCache`);
* the login flow (`src/contexts/AuthContext.tsx` `signIn`/`verifyTwoFactor`,
  `LoginForm.handleSubmit`/`handleTwoFactorSubmit`, and the `verify-2fa`
  edge function);
* the role/visibility policy (row-level-security policies of migration
  `20250918101632_humble_truth.sql`);
* the tool approval workflow (`AdminPanel.handleApprove`/`confirmReject`
  and the render guards on the moderation buttons);
* rating upsert and aggregation (`ToolRating.handleRatingClick`,
  `AIToolsList.fetchTools`);
* `signOut` and the activity logger (`useActivityLogger.logActivity`).

Timestamps are integers (milliseconds, as produced by `Date.now()`);
machine integers overflow is irrelevant at these magnitudes, so `Int`/`Nat`
are used directly.
-/

set_option autoImplicit false

/-! ## TTL cache (`src/hooks/useCache.ts`) -/

/-- Entry of the client cache: `{ data, timestamp, ttl }` where `timestamp`
is the `Date.now()` at `set` time and `ttl` is in milliseconds. -/
structure CacheEntry (α : Type) where
  data : α
  timestamp : Int
  ttl : Int
  deriving Repr, DecidableEq

/-- The private `Map<string, CacheEntry>` of class `SimpleCache`, modelled as
an association list whose `set` keeps at most one entry per key. -/
abbrev SimpleCache (α : Type) := List (String × CacheEntry α)

namespace SimpleCache

/-- Method `set(key, data, ttlSeconds = 300)`: stores the value with the
current timestamp `now` and `ttl = ttlSeconds * 1000` milliseconds,
replacing any previous entry for the key (JavaScript `Map.set`). -/
def set {α : Type} (c : SimpleCache α) (key : String) (data : α)
    (ttlSeconds : Int) (now : Int) : SimpleCache α :=
  (key, { data := data, timestamp := now, ttl := ttlSeconds * 1000 })
    :: c.filter (fun p => p.1 != key)

/-- Method `get(key)` at time `now`: returns `null` when the key is absent;
when present, if `now - entry.timestamp > entry.ttl` the entry is deleted
and `null` is returned, otherwise the stored data is returned.  The second
component is the cache after the call (the deletion side effect). -/
def get {α : Type} (c : SimpleCache α) (key : String) (now : Int) :
    Option α × SimpleCache α :=
  match c.lookup key with
  | none => (none, c)
  | some entry =>
    if now - entry.timestamp > entry.ttl then
      (none, c.filter (fun p => p.1 != key))
    else
      (some entry.data, c)

/-- Method `has(key)` at time `now`: mirrors `get`, returning only the
hit/miss bit (the deletion side effect is dropped here). -/
def has {α : Type} (c : SimpleCache α) (key : String) (now : Int) : Bool :=
  match c.lookup key with
  | none => false
  | some entry => !(now - entry.timestamp > entry.ttl)

/-- Method `clear()`: removes every entry. -/
def clear {α : Type} (_ : SimpleCache α) : SimpleCache α := []

end SimpleCache

/-- Looking a key up after filtering that key out yields nothing. -/
theorem lookup_filter_ne {α : Type} (c : SimpleCache α) (key : String) :
    (c.filter (fun p => p.1 != key)).lookup key = none := by
  induction c with
  | nil => rfl
  | cons p rest ih =>
    by_cases h : p.1 = key
    · simp [List.filter, h, ih]
    · have hb : (p.1 != key) = true := by simp [bne, h]
      have hb2 : (key == p.1) = false := by
        simp [BEq.beq]
        exact fun hk => h hk.symm
      simp [List.filter, hb, List.lookup, hb2, ih]

/-- A freshly set key is the one found by `lookup`. -/
theorem lookup_set {α : Type} (c : SimpleCache α) (key : String) (data : α)
    (ttlSeconds now : Int) :
    (SimpleCache.set c key data ttlSeconds now).lookup key =
      some { data := data, timestamp := now, ttl := ttlSeconds * 1000 } := by
  simp [SimpleCache.set, List.lookup]

/-- Concrete cache for the boundary check: one entry under key
`"categories"` (the key `useCache` actually uses), value `42`, stored at
time `0` with `ttlSeconds = 1`, hence `ttl = 1000` milliseconds. -/
def boundaryCache : SimpleCache Nat :=
  SimpleCache.set ([] : SimpleCache Nat) "categories" 42 1 0

/-- Claim C4, counterexample.  The claim says that at the instant
`now - storedAt = ttl` a `get` is a miss.  In `SimpleCache.get` the miss
condition is the strict `now - entry.timestamp > entry.ttl`, so at
`now = 1000`, with `storedAt = 0` and `ttl = 1 * 1000`, the call is a hit
and returns the stored value. -/
theorem C4_boundary_counterexample :
    (SimpleCache.get boundaryCache "categories" 1000).1 = some 42 ∧
      (1000 : Int) - 0 = 1 * 1000 := by
  constructor
  · rfl
  · rfl

/-- Claim C4, amended.  `get(key)` after `set(key, v, ttlSeconds)` at time
`t0` returns the stored value exactly when `now - t0 ≤ ttlSeconds * 1000`
(hits include the boundary instant); when `now - t0 > ttlSeconds * 1000`
the call is a miss and the stale entry is discarded from the cache. -/
theorem C4_get_ttl_semantics {α : Type} (c : SimpleCache α) (key : String)
    (v : α) (ttlSeconds t0 now : Int) :
    ((SimpleCache.set c key v ttlSeconds t0).get key now).1 =
      (if now - t0 ≤ ttlSeconds * 1000 then some v else none) ∧
    (now - t0 > ttlSeconds * 1000 →
      (((SimpleCache.set c key v ttlSeconds t0).get key now).2.lookup key)
        = none) := by
  have hl := lookup_set c key v ttlSeconds t0
  constructor
  · by_cases h : now - t0 ≤ ttlSeconds * 1000
    · have hng : ¬ now - t0 > ttlSeconds * 1000 := not_lt.mpr h
      simp [SimpleCache.get, hl, hng, h]
    · have hg : now - t0 > ttlSeconds * 1000 := lt_of_not_le h
      simp [SimpleCache.get, hl, hg, h]
  · intro hg
    simp only [SimpleCache.get, hl]
    rw [if_pos hg]
    exact lookup_filter_ne _ key

/-- Witness for `C4_get_ttl_semantics` at a concrete expired entry:
value stored at time `0` with a 1-second ttl is a miss at `now = 1001`
and the entry is gone afterwards. -/
theorem C4_get_ttl_semantics_witness :
    ((SimpleCache.set ([] : SimpleCache Nat) "categories" 42 1 0).get
        "categories" 1001).1 = none ∧
      (((SimpleCache.set ([] : SimpleCache Nat) "categories" 42 1 0).get
        "categories" 1001).2.lookup "categories") = none := by
  have h := C4_get_ttl_semantics ([] : SimpleCache Nat) "categories" 42 1 0 1001
  refine ⟨?_, h.2 (by decide)⟩
  have := h.1
  simpa using this

/-! ## Audit trail vocabulary (`src/hooks/useActivityLogger`-typed enums) -/

/-- Closed enum `ActivityAction` of `useActivityLogger`. -/
inductive ActivityAction where
  | login | logout | create_tool | update_tool | delete_tool
  | approve_tool | reject_tool | enable_2fa | disable_2fa
  | create_category | update_category | delete_category
  deriving Repr, DecidableEq

/-- Closed enum `ResourceType` of `useActivityLogger`. -/
inductive ResourceType where
  | auth | ai_tool | category | profile | system
  deriving Repr, DecidableEq

/-- Row of the append-only `activity_logs` table, restricted to the columns
the claims are about. -/
structure LogEntry where
  user_id : String
  action : ActivityAction
  resource_type : ResourceType
  deriving Repr, DecidableEq

/-! ## Login flow (`AuthContext.signIn`, `LoginForm`, `verify-2fa`) -/

/-- Login-machine state as the spec names it.  In the code this is the pair
of `LoginForm`'s `showTwoFactor` flag and the presence of a Supabase
session: credentials form shown / 2FA form shown / session established. -/
inductive LoginState where
  | awaitingCredentials
  | awaitingCode
  | authenticated
  deriving Repr, DecidableEq

/-- Result of `AuthContext.signIn` together with its observable side
effects: `error` is the returned `{ error }` field (the message, `none` for
`null`); `sessionEstablished` records whether
`supabase.auth.signInWithPassword` succeeded (which by itself creates the
session); `codeShown` records whether the 6-digit 2FA code was generated
and written to the console. -/
structure SignInOutcome where
  error : Option String
  sessionEstablished : Bool
  codeShown : Bool
  deriving Repr, DecidableEq

/-- Message of the auth-provider error for a wrong email/password. -/
def invalidCredentialsMessage : String := "Invalid login credentials"

/-- Function `signIn(email, password)` of `AuthContext`, over an oracle
`credentialsValid` for the external password check and the profile's
`two_factor_enabled` flag; `userId`/`logs` thread the `activity_logs`
insert performed on the success path.  On a provider error the function
returns `{ error: authError }` without writing anything; on success the
provider has already established the session, the 2FA code is generated
and shown iff `two_factor_enabled`, a `login` audit entry is inserted, and
`{ error: null }` is returned. -/
def signIn (credentialsValid twoFactorEnabled : Bool) (userId : String)
    (logs : List LogEntry) : SignInOutcome × List LogEntry :=
  if credentialsValid then
    ({ error := none, sessionEstablished := true,
       codeShown := twoFactorEnabled },
     logs ++ [{ user_id := userId, action := .login, resource_type := .auth }])
  else
    ({ error := some invalidCredentialsMessage, sessionEstablished := false,
       codeShown := false }, logs)

/-- Handler `LoginForm.handleSubmit` after `signIn` resolves: the 2FA form
is shown only when the returned error message is exactly
`'TWO_FACTOR_REQUIRED'`; any other error keeps the credentials form; a
`null` error means the session is live, i.e. `Authenticated`. -/
def handleSubmit (r : SignInOutcome) : LoginState :=
  match r.error with
  | some msg =>
      if msg = "TWO_FACTOR_REQUIRED" then .awaitingCode
      else .awaitingCredentials
  | none => .authenticated

/-- Check of the `verify-2fa` edge function on the submitted code:
`code.length !== 6 || !/^\d{6}$/.test(code)` rejects, i.e. the code must be
exactly six decimal digits. -/
def isSixDigitCode (code : String) : Bool :=
  code.length == 6 && code.data.all (fun c => c.isDigit)

/-- The `verify-2fa` edge function: `true` iff it answers
`{ success: true }`.  It checks only that the submitted code is a 6-digit
numeric string and that a user with the given email exists; the code that
was generated and delivered out-of-band is never consulted (the function's
own comment: for demo purposes any 6-digit code is accepted). -/
def verify2fa (userExists : Bool) (submitted : String) : Bool :=
  isSixDigitCode submitted && userExists

/-- One `handleTwoFactorSubmit` step from `AwaitingCode`: `sentCode` is the
code generated for this login attempt (by `signIn` / `send-2fa-code`);
on a `verify-2fa` success the client signs in with the returned temporary
password, establishing the session (`Authenticated`); on failure an error
toast is shown and the 2FA form stays (`AwaitingCode`).  Note `sentCode`
is not an input of the verification path in the code; it is carried here
only so the statement can compare the submitted code with it. -/
def verifyCodeStep (sentCode : String) (userExists : Bool)
    (submitted : String) : LoginState :=
  if verify2fa userExists submitted then .authenticated else .awaitingCode

/-- Claim C1, code bug, evaluated at the failing input: a profile with
`two_factor_enabled = true` and the correct password.  `signIn` calls
`signInWithPassword` first, which establishes the session; it then merely
prints the 2FA code and returns `{ error: null }`, so `handleSubmit` never
sees the `'TWO_FACTOR_REQUIRED'` error it is written to handle, and the
machine lands directly in `Authenticated`, never in `AwaitingCode`. -/
theorem C1_two_factor_bypass :
    handleSubmit (signIn true true "elena" []).1 = .authenticated ∧
      (signIn true true "elena" []).1.sessionEstablished = true ∧
      handleSubmit (signIn true true "elena" []).1 ≠ .awaitingCode := by
  refine ⟨rfl, rfl, ?_⟩
  decide

/-- Claim C2, counterexample: with the code sent out-of-band being
`"123456"`, submitting the different (hence wrong) code `"654321"` still
transitions the machine to `Authenticated`, because `verify-2fa` accepts
any 6-digit numeric string. -/
theorem C2_wrong_code_counterexample :
    verifyCodeStep "123456" true "654321" = .authenticated ∧
      "654321" ≠ "123456" := by
  refine ⟨rfl, ?_⟩
  decide

/-- Claim C2, amended.  From `AwaitingCode`, a submitted code transitions
the machine to `Authenticated` exactly when it is a 6-digit numeric string
and the email belongs to an existing user — regardless of whether it
matches the code that was generated; otherwise the machine remains in
`AwaitingCode`. -/
theorem C2_verify_code_semantics (sentCode : String) (userExists : Bool)
    (submitted : String) :
    (verifyCodeStep sentCode userExists submitted = .authenticated ↔
      (isSixDigitCode submitted = true ∧ userExists = true)) ∧
    (verifyCodeStep sentCode userExists submitted = .awaitingCode ↔
      ¬ (isSixDigitCode submitted = true ∧ userExists = true)) := by
  constructor
  · constructor
    · intro h
      by_contra hc
      have : verify2fa userExists submitted = false := by
        cases hd : isSixDigitCode submitted <;>
          cases he : userExists <;>
            simp_all [verify2fa]
      simp [verifyCodeStep, this] at h
    · rintro ⟨h1, h2⟩
      simp [verifyCodeStep, verify2fa, h1, h2]
  · constructor
    · intro h
      rintro ⟨h1, h2⟩
      simp [verifyCodeStep, verify2fa, h1, h2] at h
    · intro hc
      have : verify2fa userExists submitted = false := by
        cases hd : isSixDigitCode submitted <;>
          cases he : userExists <;>
            simp_all [verify2fa]
      simp [verifyCodeStep, this]

/-! ## Roles, tools, visibility policy (migration `humble_truth`, RLS) -/

/-- Role enum of `profiles.role` (`src/lib/supabase.ts`). -/
inductive Role where
  | owner | backend | frontend | pm | qa | designer
  deriving Repr, DecidableEq, BEq

/-- Tool status column: `CHECK (status IN ('pending','approved','rejected'))`. -/
inductive ToolStatus where
  | pending | approved | rejected
  deriving Repr, DecidableEq, BEq

/-- The acting authenticated user: `auth.uid()` plus the `profiles.role`
row the policies join against. -/
structure Actor where
  id : String
  role : Role
  deriving Repr, DecidableEq

/-- Row of `ai_tools`, restricted to the approval-workflow columns. -/
structure ToolRow where
  id : String
  name : String
  created_by : String
  status : ToolStatus
  approved_by : Option String
  approved_at : Option Int
  rejection_reason : Option String
  deriving Repr, DecidableEq

/-- RLS policy "Users can read approved tools and own tools":
`status = 'approved' OR created_by = auth.uid() OR` the actor's profile
role is `'owner'`.  The same disjunction is the client-side filter in
`AIToolsList.fetchTools`. -/
def canView (t : ToolRow) (actor : Actor) : Bool :=
  (t.status == ToolStatus.approved) || (t.created_by == actor.id) ||
    (actor.role == Role.owner)

/-- Moderation capability: the admin panel and the approve/reject flow are
available only to `profile.role === 'owner'`
(`AdminPanel`, line guard `profile?.role !== 'owner'`). -/
def canModerate (actor : Actor) : Bool := actor.role == Role.owner

/-- Derived `BEq` on `ToolStatus` agrees with equality. -/
theorem toolStatus_beq_iff (s s' : ToolStatus) : (s == s') = true ↔ s = s' := by
  cases s <;> cases s' <;> decide

/-- Derived `BEq` on `Role` agrees with equality. -/
theorem role_beq_iff (r r' : Role) : (r == r') = true ↔ r = r' := by
  cases r <;> cases r' <;> decide

/-- Claim C7: `canView` holds exactly when the tool is approved, or the
actor created it, or the actor's role is `owner`; in particular a pending
tool is invisible to any non-creator whose role is not `owner`. -/
theorem C7_canView_policy (t : ToolRow) (actor : Actor)
    (hs : t.status = ToolStatus.pending) (hc : t.created_by ≠ actor.id)
    (hr : actor.role ≠ Role.owner) :
    canView t actor = false ∧
      ∀ (t' : ToolRow) (a' : Actor),
        (canView t' a' = true ↔
          (t'.status = ToolStatus.approved ∨ t'.created_by = a'.id ∨
            a'.role = Role.owner)) := by
  constructor
  · simp only [canView, Bool.or_eq_false_iff]
    refine ⟨⟨?_, ?_⟩, ?_⟩
    · rw [hs]; decide
    · exact beq_eq_false_iff_ne.mpr hc
    · cases hrr : (actor.role == Role.owner)
      · rfl
      · exact absurd ((role_beq_iff _ _).mp hrr) hr
  · intro t' a'
    simp only [canView, Bool.or_eq_true, toolStatus_beq_iff, beq_iff_eq,
      role_beq_iff]
    tauto

/-- Witness for `C7_canView_policy`: the pending tool `"Foo"` created by
`"userA"` is not visible to the frontend user `"userB"`. -/
theorem C7_canView_policy_witness :
    canView
      { id := "t1", name := "Foo", created_by := "userA",
        status := .pending, approved_by := none, approved_at := none,
        rejection_reason := none }
      { id := "userB", role := .frontend } = false :=
  (C7_canView_policy _ _ rfl (by decide) (by decide)).1

/-! ## Tool approval workflow (`AdminPanel`, migration policies) -/

/-- RLS policy "Users can create tools (pending approval)":
`WITH CHECK (created_by = auth.uid() AND status = 'pending')`; together
with the column default `status text DEFAULT 'pending'` this makes
`pending` the only status a tool can be created with. -/
def insertToolAllowed (t : ToolRow) (uid : String) : Bool :=
  (t.created_by == uid) && (t.status == ToolStatus.pending)

/-- Render guard of the approve/reject buttons in `AdminPanel` (both the
desktop table and the mobile cards): the two buttons exist in the DOM only
when `tool.status === 'pending'`. -/
def moderationButtonsVisible (status : ToolStatus) : Bool :=
  status == ToolStatus.pending

/-- Default rejection reason of `confirmReject`:
`rejectionReason || 'Няма посочена причина'` ("no reason given"). -/
def defaultRejectionReason : String := "Няма посочена причина"

/-- Update performed by `AdminPanel.handleApprove` when invoked: sets
`status='approved'`, `approved_by` to the acting user, `approved_at` to
now, and clears `rejection_reason`.  The handler itself does not inspect
the current status. -/
def handleApprove (t : ToolRow) (uid : String) (now : Int) :
    ToolRow × LogEntry :=
  ({ t with status := .approved, approved_by := some uid,
            approved_at := some now, rejection_reason := none },
   { user_id := uid, action := .approve_tool, resource_type := .ai_tool })

/-- Update performed by `AdminPanel.confirmReject` when invoked: sets
`status='rejected'`, `approved_by` to the acting user, `approved_at` to
now, and `rejection_reason` to the typed reason, defaulting to
`defaultRejectionReason` when the textarea is empty.  The handler itself
does not inspect the current status. -/
def confirmReject (t : ToolRow) (uid : String) (now : Int)
    (reason : String) : ToolRow × LogEntry :=
  ({ t with status := .rejected, approved_by := some uid,
            approved_at := some now,
            rejection_reason :=
              some (if reason = "" then defaultRejectionReason else reason) },
   { user_id := uid, action := .reject_tool, resource_type := .ai_tool })

/-- The two moderation actions the admin panel can trigger. -/
inductive ModAction where
  | approve | reject
  deriving Repr, DecidableEq

/-- One moderation step through the admin panel: the panel is rendered only
for an actor with `canModerate` (`profile.role === 'owner'`), and the
approve/reject buttons are rendered only while the tool is `pending`
(`moderationButtonsVisible`); when both hold the corresponding handler
runs, otherwise no transition can be triggered (`none`). -/
def adminModerationStep (t : ToolRow) (m : Actor) (now : Int)
    (reason : String) (a : ModAction) : Option (ToolRow × LogEntry) :=
  if canModerate m && moderationButtonsVisible t.status then
    some (match a with
          | .approve => handleApprove t m.id now
          | .reject => confirmReject t m.id now reason)
  else
    none

/-- An already approved example tool, as moderated by the owner. -/
def approvedToolEx : ToolRow :=
  { id := "t1", name := "Foo", created_by := "userA", status := .approved,
    approved_by := some "ivan", approved_at := some 1000,
    rejection_reason := none }

/-- An already rejected example tool, as moderated by the owner. -/
def rejectedToolEx : ToolRow :=
  { id := "t2", name := "Bar", created_by := "userA", status := .rejected,
    approved_by := some "ivan", approved_at := some 1000,
    rejection_reason := some "spam" }

/-- The owner actor of the examples. -/
def ownerEx : Actor := { id := "ivan", role := .owner }

/-- Claim C3, counterexample: even for an actor with `canModerate`, the
admin panel offers no transition out of `approved` (no reject button) and
none out of `rejected` (no approve button) — the buttons are rendered only
while `status === 'pending'`, so approved and rejected cannot be revisited
through the moderation UI, contradicting the claim that there is no
terminal state. -/
theorem C3_terminal_counterexample :
    canModerate ownerEx = true ∧
      adminModerationStep approvedToolEx ownerEx 2000 "late reject"
        ModAction.reject = none ∧
      adminModerationStep rejectedToolEx ownerEx 2000 ""
        ModAction.approve = none := by
  refine ⟨rfl, rfl, rfl⟩

/-- Claim C3, amended: `pending` is the unique initial state (the insert
policy admits only `status = 'pending'`), and a moderation action is
available through the admin panel exactly for a moderator and a tool still
in `pending` — once a tool is `approved` or `rejected` no further
moderation transition can be triggered there, although the handlers
themselves would update any row when invoked. -/
theorem C3_pending_only_moderation (t : ToolRow) (uid : String) (m : Actor)
    (now : Int) (reason : String) (a : ModAction) :
    (insertToolAllowed t uid = true → t.status = ToolStatus.pending) ∧
      ((adminModerationStep t m now reason a).isSome ↔
        (canModerate m = true ∧ t.status = ToolStatus.pending)) := by
  constructor
  · intro h
    have h2 := (Bool.and_eq_true _ _).mp h
    exact (toolStatus_beq_iff _ _).mp h2.2
  · constructor
    · intro h
      by_cases hm : canModerate m && moderationButtonsVisible t.status
      · refine ⟨((Bool.and_eq_true _ _).mp hm).1, ?_⟩
        exact (toolStatus_beq_iff _ _).mp ((Bool.and_eq_true _ _).mp hm).2
      · unfold adminModerationStep at h
        rw [if_neg hm] at h
        simp at h
    · rintro ⟨h1, h2⟩
      have hv : moderationButtonsVisible t.status = true := by
        rw [moderationButtonsVisible, h2]; rfl
      unfold adminModerationStep
      rw [if_pos (by rw [h1, hv]; rfl)]
      rfl

/-- Witness for `C3_pending_only_moderation`: a fresh pending tool can be
created only as pending, and the owner does get moderation actions for it. -/
theorem C3_pending_only_moderation_witness :
    ({ id := "t3", name := "Baz", created_by := "userA",
       status := ToolStatus.pending, approved_by := none,
       approved_at := none,
       rejection_reason := none } : ToolRow).status = ToolStatus.pending ∧
      (adminModerationStep
        { id := "t3", name := "Baz", created_by := "userA",
          status := .pending, approved_by := none, approved_at := none,
          rejection_reason := none }
        { id := "ivan", role := .owner } 2000 "" ModAction.approve).isSome := by
  have h := C3_pending_only_moderation
    { id := "t3", name := "Baz", created_by := "userA",
      status := .pending, approved_by := none, approved_at := none,
      rejection_reason := none }
    "userA" { id := "ivan", role := .owner } 2000 "" ModAction.approve
  exact ⟨h.1 (by decide), h.2.mpr ⟨by decide, rfl⟩⟩

/-- Claim C8: for any moderator satisfying `canModerate`, `confirmReject`
through the admin panel sets `status = rejected`,
`approved_by = moderator.id`, `approved_at = now`, `rejection_reason` to
the supplied reason — or to the default `defaultRejectionReason`
(the localized "no reason given") when the reason field is empty — and
emits the audit action `reject_tool` on resource type `ai_tool`. -/
theorem C8_confirmReject_fields (t : ToolRow) (m : Actor) (now : Int)
    (reason : String) (hm : canModerate m = true) (a : ModAction)
    (ha : a = ModAction.reject) (hp : t.status = ToolStatus.pending) :
    ∃ t' ev, adminModerationStep t m now reason a = some (t', ev) ∧
      t'.status = ToolStatus.rejected ∧
      t'.approved_by = some m.id ∧
      t'.approved_at = some now ∧
      t'.rejection_reason =
        some (if reason = "" then defaultRejectionReason else reason) ∧
      ev.action = ActivityAction.reject_tool ∧
      ev.resource_type = ResourceType.ai_tool := by
  subst ha
  refine ⟨(confirmReject t m.id now reason).1,
          (confirmReject t m.id now reason).2, ?_, rfl, rfl, rfl, rfl, rfl, rfl⟩
  have hv : moderationButtonsVisible t.status = true := by
    rw [moderationButtonsVisible, hp]; rfl
  unfold adminModerationStep
  rw [if_pos (by rw [hm, hv]; rfl)]

/-- Witness for `C8_confirmReject_fields`: the owner rejects the pending
tool `"Baz"` with an empty reason, and the stored reason is the default. -/
theorem C8_confirmReject_fields_witness :
    ∃ t' ev,
      adminModerationStep
        { id := "t3", name := "Baz", created_by := "userA",
          status := .pending, approved_by := none, approved_at := none,
          rejection_reason := none }
        { id := "ivan", role := .owner } 2000 "" ModAction.reject
        = some (t', ev) ∧
      t'.status = ToolStatus.rejected ∧
      t'.approved_by = some "ivan" ∧
      t'.approved_at = some 2000 ∧
      t'.rejection_reason = some (if "" = "" then defaultRejectionReason
        else "") ∧
      ev.action = ActivityAction.reject_tool ∧
      ev.resource_type = ResourceType.ai_tool :=
  C8_confirmReject_fields
    { id := "t3", name := "Baz", created_by := "userA",
      status := .pending, approved_by := none, approved_at := none,
      rejection_reason := none }
    { id := "ivan", role := .owner } 2000 "" (by decide) ModAction.reject
    rfl rfl

/-! ## Ratings (`tool_ratings`, `ToolRating.handleRatingClick`,
`AIToolsList.fetchTools`) -/

/-- Row of `tool_ratings`: `UNIQUE(tool_id, user_id)`,
`CHECK (rating >= 1 AND rating <= 5)`. -/
structure RatingRow where
  tool_id : String
  user_id : String
  rating : Nat
  deriving Repr, DecidableEq

/-- The `tool_ratings` table. -/
abbrev RatingTable := List RatingRow

/-- Rows of the table for one `(tool_id, user_id)` pair. -/
def filterKey (tbl : RatingTable) (toolId userId : String) : RatingTable :=
  tbl.filter fun r => r.tool_id == toolId && r.user_id == userId

/-- The write issued by `handleRatingClick`:
`supabase.from('tool_ratings').upsert({ tool_id, user_id, rating })`.
The call passes no `onConflict` option and no `id`, so the request reaches
PostgREST as an upsert whose conflict target is the primary key `id`; the
row's `id` is a freshly generated uuid that never collides, so the
statement is in effect a plain insert: when the table already holds a row
for the `(tool_id, user_id)` pair it fails with a unique-constraint
violation of `UNIQUE(tool_id, user_id)` and leaves the table unchanged,
and only when no row for the pair exists does it insert one. -/
def upsertRating (tbl : RatingTable) (toolId userId : String) (value : Nat) :
    Except String RatingTable :=
  if tbl.any (fun r => r.tool_id == toolId && r.user_id == userId) then
    Except.error
      "duplicate key value violates unique constraint tool_ratings_tool_id_user_id_key"
  else
    Except.ok
      ({ tool_id := toolId, user_id := userId, rating := value } :: tbl)

/-- Handler `ToolRating.handleRatingClick`: returns without writing when no
user is signed in; otherwise issues the upsert, and on a database error
(`if (error) throw error`) the catch block only logs to the console, so
the table is left as the database left it — unchanged. -/
def handleRatingClick (tbl : RatingTable) (user : Option String)
    (toolId : String) (value : Nat) : RatingTable :=
  match user with
  | none => tbl
  | some uid =>
    match upsertRating tbl toolId uid value with
    | Except.ok tbl2 => tbl2
    | Except.error _ => tbl

/-- Claim C5, code bug, evaluated at the failing input: the actor
`"elena"` already rated `"toolX"` with `3` and rates it again with `5`
(the spec's own re-rate scenario).  Because the upsert's conflict target
is the primary key rather than `(tool_id, user_id)`, the second write
errors on the unique constraint and the stored rating stays `3` instead
of being overwritten with `5`.  The final conjunct runs the claim's
literal two-`rate(5)` sequence from an empty table: exactly one row with
value `5` does remain, but only because the second call fails outright —
nothing is ever overwritten. -/
theorem C5_rerate_unique_violation :
    upsertRating [{ tool_id := "toolX", user_id := "elena", rating := 3 }]
        "toolX" "elena" 5
      = Except.error
          "duplicate key value violates unique constraint tool_ratings_tool_id_user_id_key" ∧
    handleRatingClick
        [{ tool_id := "toolX", user_id := "elena", rating := 3 }]
        (some "elena") "toolX" 5
      = [{ tool_id := "toolX", user_id := "elena", rating := 3 }] ∧
    filterKey
      (handleRatingClick
        (handleRatingClick [] (some "elena") "toolX" 5)
        (some "elena") "toolX" 5)
      "toolX" "elena"
      = [{ tool_id := "toolX", user_id := "elena", rating := 5 }] := by
  refine ⟨rfl, rfl, rfl⟩

/-- Average computed by `AIToolsList.fetchTools` for one tool:
`ratings.length > 0 ? ratings.reduce((sum, r) => sum + r.rating, 0) /
ratings.length : 0`.  The rating values are small integers, so exact
rational arithmetic models the JavaScript computation. -/
def averageRating (ratings : List ℚ) : ℚ :=
  if ratings.length > 0 then ratings.sum / ratings.length else 0

/-- Aggregate average of a tool over the `tool_ratings` table, as
`fetchTools` derives it from the rows returned by
`.from('tool_ratings').select('rating').eq('tool_id', tool.id)`. -/
def toolAverageRating (tbl : RatingTable) (toolId : String) : ℚ :=
  averageRating ((tbl.filter fun r => r.tool_id == toolId).map
    fun r => (r.rating : ℚ))

/-- Claim C6: the aggregate average of a tool is `0` (a number, not null
or NaN) when the tool has no rating rows; otherwise it is the arithmetic
mean of the stored values; and any reordering of the table — in
particular, any insertion order of the same rows — yields the same
average. -/
theorem C6_average_aggregate (tbl tbl' : RatingTable) (toolId : String)
    (hp : tbl.Perm tbl') :
    toolAverageRating tbl toolId = toolAverageRating tbl' toolId ∧
      ((tbl.filter fun r => r.tool_id == toolId) = [] →
        toolAverageRating tbl toolId = 0) ∧
      ((tbl.filter fun r => r.tool_id == toolId) ≠ [] →
        toolAverageRating tbl toolId =
          ((tbl.filter fun r => r.tool_id == toolId).map
            fun r => (r.rating : ℚ)).sum /
          ((tbl.filter fun r => r.tool_id == toolId).length : ℚ)) := by
  refine ⟨?_, ?_, ?_⟩
  · have hperm : ((tbl.filter fun r => r.tool_id == toolId).map
        fun r => (r.rating : ℚ)).Perm
        ((tbl'.filter fun r => r.tool_id == toolId).map
          fun r => (r.rating : ℚ)) :=
      (hp.filter _).map _
    rw [toolAverageRating, toolAverageRating, averageRating, averageRating,
      hperm.length_eq, hperm.sum_eq]
  · intro h
    rw [toolAverageRating, h]
    rfl
  · intro h
    have hlen : ((tbl.filter fun r => r.tool_id == toolId).map
        fun r => (r.rating : ℚ)).length > 0 := by
      rw [List.length_map]
      exact List.length_pos.mpr h
    rw [toolAverageRating, averageRating, if_pos hlen, List.length_map]

/-- Witness for `C6_average_aggregate`: two ratings of `"toolX"` inserted
in either order average to the same value, and a tool with no rows
averages to `0`. -/
theorem C6_average_aggregate_witness :
    toolAverageRating
        [{ tool_id := "toolX", user_id := "a", rating := 2 },
         { tool_id := "toolX", user_id := "b", rating := 5 }] "toolX" =
      toolAverageRating
        [{ tool_id := "toolX", user_id := "b", rating := 5 },
         { tool_id := "toolX", user_id := "a", rating := 2 }] "toolX" ∧
      toolAverageRating
        [{ tool_id := "toolX", user_id := "a", rating := 2 },
         { tool_id := "toolX", user_id := "b", rating := 5 }] "toolY" = 0 := by
  constructor
  · exact (C6_average_aggregate _ _ "toolX"
      (List.Perm.swap _ _ [])).1
  · exact (C6_average_aggregate
      [{ tool_id := "toolX", user_id := "a", rating := 2 },
       { tool_id := "toolX", user_id := "b", rating := 5 }]
      [{ tool_id := "toolX", user_id := "a", rating := 2 },
       { tool_id := "toolX", user_id := "b", rating := 5 }] "toolY"
      (List.Perm.refl _)).2.1 (by decide)

/-! ## Sign-out and the activity logger -/

/-- Local client state held by `AuthProvider`: the `session`, `user` and
`profile` React state (each `none` when cleared). -/
structure AuthLocalState where
  session : Option String
  user : Option String
  profile : Option String
  deriving Repr, DecidableEq

/-- Outcome of the provider call `supabase.auth.signOut()`: success, an
error whose message marks the session as already gone
(`'Session from session_id claim in JWT does not exist'` /
`'session_not_found'`), any other error object, or a thrown exception. -/
inductive ProviderSignOutOutcome where
  | ok
  | errorSessionMissing (msg : String)
  | errorOther (msg : String)
  | thrown (msg : String)
  deriving Repr, DecidableEq

/-- Result of `AuthContext.signOut`: the returned `{ error }` value, the
local auth state afterwards, and whether the cache was cleared. -/
structure SignOutResult where
  error : Option String
  state : AuthLocalState
  cacheCleared : Bool
  deriving Repr, DecidableEq

/-- Function `signOut` of `AuthContext`.  When the client is not configured
it returns `{ error: null }` immediately.  Otherwise it clears the whole
cache, clears `session`/`user`/`profile` first, then calls the provider;
every branch of the subsequent error handling — session-missing error,
any other error, or a thrown exception — still returns `{ error: null }`
(the branches differ only in what they log to the console). -/
def signOut (configured : Bool) (st : AuthLocalState)
    (outcome : ProviderSignOutOutcome) : SignOutResult :=
  if configured then
    let cleared : AuthLocalState :=
      { session := none, user := none, profile := none }
    match outcome with
    | .ok => { error := none, state := cleared, cacheCleared := true }
    | .errorSessionMissing _ =>
        { error := none, state := cleared, cacheCleared := true }
    | .errorOther _ => { error := none, state := cleared, cacheCleared := true }
    | .thrown _ => { error := none, state := cleared, cacheCleared := true }
  else
    { error := none, state := st, cacheCleared := false }

/-- Claim C9: `signOut` resolves with `{ error: null }` on every path —
unconfigured client, provider success, either class of provider error, or
a thrown exception — and whenever the provider is consulted the local
session, user and profile are cleared (and the cache emptied) regardless
of its outcome. -/
theorem C9_signOut_always_null (configured : Bool) (st : AuthLocalState)
    (outcome : ProviderSignOutOutcome) :
    (signOut configured st outcome).error = none ∧
      ((signOut true st outcome).state =
        { session := none, user := none, profile := none } ∧
       (signOut true st outcome).cacheCleared = true) := by
  refine ⟨?_, ?_, ?_⟩
  · cases configured <;> cases outcome <;> rfl
  · cases outcome <;> rfl
  · cases outcome <;> rfl

/-! ## Activity logger ordering (`useActivityLogger.logActivity`, `signIn`) -/

/-- Function `logActivity` of `useActivityLogger`: returns without writing
when no user is signed in or the client is unconfigured
(`if (!user || !supabase) return`); otherwise appends one row with the
signed-in user's id to `activity_logs`. -/
def logActivity (user : Option String) (configured : Bool)
    (logs : List LogEntry) (action : ActivityAction) (rt : ResourceType) :
    List LogEntry :=
  match user with
  | none => logs
  | some uid =>
    if configured then
      logs ++ [{ user_id := uid, action := action, resource_type := rt }]
    else
      logs

/-- Claim C10: an audit row is only written on behalf of an authenticated
user — `logActivity` with no user leaves the log untouched — and `signIn`
writes its `login` audit entry only on the branch taken after the
credential check succeeded: an attempt with invalid credentials leaves the
log untouched, while a valid one appends exactly the `login`/`auth`
entry. -/
theorem C10_audit_requires_auth (configured twoFactorEnabled : Bool)
    (logs : List LogEntry) (action : ActivityAction) (rt : ResourceType)
    (userId : String) :
    logActivity none configured logs action rt = logs ∧
      (signIn false twoFactorEnabled userId logs).2 = logs ∧
      (signIn true twoFactorEnabled userId logs).2 =
        logs ++ [{ user_id := userId, action := ActivityAction.login,
                   resource_type := ResourceType.auth }] := by
  refine ⟨rfl, rfl, rfl⟩

/-- Witness for `C2_verify_code_semantics`: the well-formed code
`"222222"` authenticates even though it is unrelated to any sent code. -/
theorem C2_verify_code_semantics_witness :
    verifyCodeStep "123456" true "222222" = LoginState.authenticated :=
  (C2_verify_code_semantics "123456" true "222222").1.mpr ⟨by decide, rfl⟩

/-- Witness for `C9_signOut_always_null`: a provider error still yields
`{ error: null }` and a cleared local state. -/
theorem C9_signOut_always_null_witness :
    (signOut true
      { session := some "s", user := some "u", profile := some "p" }
      (ProviderSignOutOutcome.errorOther "network down")).error = none ∧
      (signOut true
        { session := some "s", user := some "u", profile := some "p" }
        (ProviderSignOutOutcome.errorOther "network down")).state =
        { session := none, user := none, profile := none } :=
  ⟨(C9_signOut_always_null true
      { session := some "s", user := some "u", profile := some "p" }
      (ProviderSignOutOutcome.errorOther "network down")).1,
   (C9_signOut_always_null true
      { session := some "s", user := some "u", profile := some "p" }
      (ProviderSignOutOutcome.errorOther "network down")).2.1⟩

/-- Witness for `C10_audit_requires_auth`: a failed login of `"elena"`
writes nothing to an empty log. -/
theorem C10_audit_requires_auth_witness :
    (signIn false true "elena" ([] : List LogEntry)).2 = [] :=
  (C10_audit_requires_auth true true [] ActivityAction.login
    ResourceType.auth "elena").2.1
